import Mathlib

/-!
Shallow embedding of the `Solutions` view component (the solution-review
screen of the Weather desktop application) and proofs of its specified
properties.

The component is a single-threaded, event-driven React component: platform
events arrive one at a time, each handler runs to completion and produces a
new component state plus a list of externally visible effects (toasts, log
lines, view transitions requested through the `setView` prop, platform
delete requests, and the deferred zero-delay task scheduled by the reset
handler).  We embed each handler as a pure function
`input -> State -> State x List Effect`; asynchronous platform responses
(the screenshot fetch, the delete call) are passed in as explicit arguments
describing the platform's answer.  The shared query cache ("problem
statement", "solution", "new_solution" entries) is embedded as
`Option`-valued fields of the state, with `setQueryData` / `removeQueries`
acting as full-value replacement and removal, per the cache collaborator's
contract.
-/

namespace SolutionsSpec

/-- Payload of the `problem-extracted` event (`ProblemStatementData` in the
source). -/
structure ProblemStatementData where
  problem_statement : String
deriving DecidableEq

/-- A generated solution (`Solution` in the source); the same shape is used
for the primary solution and the debug-revision solution. -/
structure Solution where
  code : String
  thoughts : List String
  time_complexity : String
  space_complexity : String
deriving DecidableEq

/-- A locally retained screenshot reference: the source builds these from
platform data as `{ id: p.path, path: p.path, preview: p.preview,
timestamp: Date.now() }`. -/
structure ScreenshotRef where
  id : String
  path : String
  preview : String
  timestamp : Nat
deriving DecidableEq

/-- An entry of the platform's `getScreenshots()` response (`{path,
preview}`). -/
structure RawScreenshot where
  path : String
  preview : String
deriving DecidableEq

/-- Toast severity, third argument of `showToast`. -/
inductive Severity where
  | error
  | neutral
  | success
deriving DecidableEq

/-- Externally visible effects a handler can produce. -/
inductive Effect where
  | toast (title message : String) (sev : Severity)
  | warnLog (message : String)
  | errorLog (message : String)
  | invalidateSolution
  | setViewQueue
  | deferResetDone
  | deleteRequest (path : String)
deriving DecidableEq

/-- The component's state: the three cache entries it reads, the two
transient flags, and the local screenshot list. -/
structure State where
  problem_statement : Option ProblemStatementData
  solution : Option Solution
  new_solution : Option Solution
  debugProcessing : Bool
  isResetting : Bool
  extraScreenshots : List ScreenshotRef
deriving DecidableEq

/-- State at mount: `useState(false)` twice and `useState([])`, with no
cache entries populated. -/
def initialState : State :=
  { problem_statement := none
    solution := none
    new_solution := none
    debugProcessing := false
    isResetting := false
    extraScreenshots := [] }

/-- `const MAX_SCREENSHOTS = 100`. -/
def MAX_SCREENSHOTS : Nat := 100

/-- Outcome of an awaited `window.electronAPI.getScreenshots()` call:
a resolved array, a resolved non-array value (the source guards with
`Array.isArray(existing) ? existing : []`), or a rejection/throw. -/
inductive FetchResult where
  | ok (screenshots : List RawScreenshot)
  | nonArray
  | threw
deriving DecidableEq

/-- JavaScript `array.slice(-n)` for positive `n`: the last `min n length`
elements, i.e. everything after dropping `length - n` from the front. -/
def sliceFromEnd (n : Nat) (l : List α) : List α :=
  l.drop (l.length - n)

/-- Conversion the source applies to each platform screenshot inside
`onScreenshotTaken` (the `Date.now()` timestamp is the `now` argument). -/
def toScreenshotRef (now : Nat) (p : RawScreenshot) : ScreenshotRef :=
  { id := p.path, path := p.path, preview := p.preview, timestamp := now }

/-- Handler for `screenshot-taken`: re-fetch the platform's list, map it,
truncate with `.slice(-MAX_SCREENSHOTS)` and replace the local list; a
thrown fetch error is caught and only logged, leaving the state unchanged. -/
def onScreenshotTaken (fetched : FetchResult) (now : Nat) (s : State) :
    State × List Effect :=
  match fetched with
  | .threw => (s, [Effect.errorLog "Error loading extra screenshots:"])
  | .nonArray => ({ s with extraScreenshots := [] }, [])
  | .ok raw =>
      ({ s with extraScreenshots :=
          sliceFromEnd MAX_SCREENSHOTS (raw.map (toScreenshotRef now)) }, [])

/-- Handler for `reset-view`: set `isResetting`, remove the `solution` and
`new_solution` cache entries, clear the screenshot list, and schedule
`setIsResetting(false)` with `setTimeout(..., 0)` (the `deferResetDone`
effect). -/
def onResetView (s : State) : State × List Effect :=
  ({ s with
      isResetting := true
      solution := none
      new_solution := none
      extraScreenshots := [] }, [Effect.deferResetDone])

/-- The deferred zero-delay task scheduled by `onResetView`:
`() => setIsResetting(false)`. -/
def resetDone (s : State) : State :=
  { s with isResetting := false }

/-- Handler for `solution-start`: `invalidateQueries` on the `solution`
key (marks stale without clearing the value). -/
def onSolutionStart (s : State) : State × List Effect :=
  (s, [Effect.invalidateSolution])

/-- Handler for `problem-extracted`: replace the `problem_statement` cache
entry. -/
def onProblemExtracted (data : ProblemStatementData) (s : State) :
    State × List Effect :=
  ({ s with problem_statement := some data }, [])

/-- Handler for `solution-error`: show an error toast with the message;
if no `solution` is cached, call `setView("queue")`; log the error. -/
def onSolutionError (error : String) (s : State) : State × List Effect :=
  let effs := [Effect.toast "Processing Failed" error Severity.error]
  let effs := if s.solution.isNone then effs ++ [Effect.setViewQueue] else effs
  (s, effs ++ [Effect.errorLog "Processing error:"])

/-- Handler for `solution-success`: `if (!data)` log a warning and return
without touching any state; otherwise replace the `solution` cache entry
and call `onScreenshotTaken()` (whose platform response is the `fetched`
argument). -/
def onSolutionSuccess (data : Option Solution) (fetched : FetchResult)
    (now : Nat) (s : State) : State × List Effect :=
  match data with
  | none => (s, [Effect.warnLog "Received empty or invalid solution data"])
  | some d => onScreenshotTaken fetched now { s with solution := some d }

/-- Handler for `debug-start`: `setDebugProcessing(true)`. -/
def onDebugStart (s : State) : State × List Effect :=
  ({ s with debugProcessing := true }, [])

/-- Handler for `debug-success`: unconditionally write the payload to the
`new_solution` cache entry and clear the debug-processing flag; there is
no payload guard. -/
def onDebugSuccess (data : Option Solution) (s : State) : State × List Effect :=
  ({ s with new_solution := data, debugProcessing := false }, [])

/-- Handler for `debug-error`: generic error toast, clear the
debug-processing flag. -/
def onDebugError (s : State) : State × List Effect :=
  ({ s with debugProcessing := false },
    [Effect.toast "Processing Failed"
      "There was an error debugging your code." Severity.error])

/-- Handler for `processing-no-screenshots`: neutral toast only. -/
def onProcessingNoScreenshots (s : State) : State × List Effect :=
  (s, [Effect.toast "No Screenshots"
        "There are no extra screenshots to process." Severity.neutral])

/-- The two top-level branches of the component's render: the `Debug`
view, or the base queue/solution layout. -/
inductive View where
  | debug
  | base
deriving DecidableEq

/-- The render's branch condition:
`!isResetting && newSolutionData ? <Debug .../> : <base layout>`. -/
def selectView (s : State) : View :=
  if !s.isResetting && s.new_solution.isSome then View.debug else View.base

/-- Outcome of an awaited `window.electronAPI.deleteScreenshot(path)` call:
a response with `success: true`, a response with `success: false`, or a
rejection/throw. -/
inductive DeleteOutcome where
  | success
  | failure
  | threw
deriving DecidableEq

/-- `handleDeleteExtraScreenshot(index)`: read `extraScreenshots[index]`
(an out-of-range index yields no entry; the subsequent `.path` dereference
then throws inside the `try` block and lands in the `catch`), request
deletion of the entry's path from the platform, and on `success` re-fetch
the list via `onScreenshotTaken`; a failed response or a throw produces an
error toast and leaves the state unchanged. -/
def handleDeleteExtraScreenshot (index : Nat) (resp : DeleteOutcome)
    (fetched : FetchResult) (now : Nat) (s : State) : State × List Effect :=
  match s.extraScreenshots[index]? with
  | none =>
      (s, [Effect.toast "Error" "Failed to delete the screenshot" Severity.error])
  | some shot =>
      match resp with
      | .success =>
          let r := onScreenshotTaken fetched now s
          (r.1, Effect.deleteRequest shot.path :: r.2)
      | .failure =>
          (s, [Effect.deleteRequest shot.path,
               Effect.toast "Error" "Failed to delete the screenshot" Severity.error])
      | .threw =>
          (s, [Effect.deleteRequest shot.path,
               Effect.toast "Error" "Failed to delete the screenshot" Severity.error])

/-- Applying a whole sequence of `screenshot-taken` events (each with the
platform's response and the `Date.now()` value at that moment) to a state. -/
def runScreenshotEvents (evs : List (FetchResult × Nat)) (s : State) : State :=
  evs.foldl (fun st ev => (onScreenshotTaken ev.1 ev.2 st).1) s

/-- The ten named platform events the component subscribes to. -/
inductive EventName where
  | screenshotTaken
  | resetView
  | solutionStart
  | problemExtracted
  | solutionError
  | solutionSuccess
  | debugStart
  | debugSuccess
  | debugError
  | processingNoScreenshots
deriving DecidableEq

/-- The registration list built in the mount effect: one
`window.electronAPI.on<Event>(handler)` call per event, in source order. -/
def registeredEvents : List EventName :=
  [EventName.screenshotTaken, EventName.resetView, EventName.solutionStart,
   EventName.problemExtracted, EventName.solutionError, EventName.solutionSuccess,
   EventName.debugStart, EventName.debugSuccess, EventName.debugError,
   EventName.processingNoScreenshots]

/-- The teardown loop
`unregisterFunctions.forEach(unregister => unregister && unregister())`:
each present unregister function is applied to the platform registry, an
absent one is skipped. -/
def runCleanup {α : Type} (us : List (Option (α → α))) (r : α) : α :=
  match us with
  | [] => r
  | u :: rest =>
      runCleanup rest (match u with
        | some f => f r
        | none => r)

/-- The code points stripped by JavaScript's `String.prototype.trim`
(ECMA-262 TrimString: the WhiteSpace production — tab, VT, FF, space,
NBSP, ZWNBSP and the Unicode space separators U+1680, U+2000..U+200A,
U+202F, U+205F, U+3000 — plus the LineTerminator production LF, CR, LS,
PS). -/
def isJsWhitespace (c : Char) : Bool :=
  c == '\t' || c == '\n' || c == '\x0b' || c == '\x0c' || c == '\r' || c == ' '
    || c == '\u00a0' || c == '\u1680'
    || c == '\u2000' || c == '\u2001' || c == '\u2002' || c == '\u2003'
    || c == '\u2004' || c == '\u2005' || c == '\u2006' || c == '\u2007'
    || c == '\u2008' || c == '\u2009' || c == '\u200a'
    || c == '\u2028' || c == '\u2029' || c == '\u202f' || c == '\u205f'
    || c == '\u3000' || c == '\ufeff'

/-- JavaScript `string.trim()` over the character list: drop whitespace
from both ends. -/
def jsTrim (l : List Char) : List Char :=
  ((l.dropWhile isJsWhitespace).reverse.dropWhile isJsWhitespace).reverse

/-- Prefix match of the regex fragment `[^)]*\)`. -/
def bigOClose : List Char → Bool
  | [] => false
  | c :: rest => c == ')' || bigOClose rest

/-- Prefix match of the regex fragment `[^)]+\)`. -/
def bigOBody : List Char → Bool
  | [] => false
  | c :: rest => c != ')' && bigOClose rest

/-- Prefix match of the regex `O\([^)]+\)` with the `i` flag (so the
leading letter may be upper- or lower-case). -/
def bigOAt : List Char → Bool
  | o :: p :: rest => (o == 'O' || o == 'o') && p == '(' && bigOBody rest
  | _ => false

/-- Search form of the regex: `bigORegex.test` succeeds when the pattern
matches at some position of the string. -/
def bigOSearch : List Char → Bool
  | [] => false
  | c :: rest => bigOAt (c :: rest) || bigOSearch rest

/-- `/O\([^)]+\)/i.test(complexity)`. -/
def bigORegexTest (s : String) : Bool :=
  bigOSearch s.data

/-- `formatComplexity` from the `ComplexitySection` component: absent or
blank input renders "N/A"; input already containing a Big-O pattern is
returned verbatim; anything else is wrapped as `O(value)`. -/
def formatComplexity (complexity : Option String) : String :=
  match complexity with
  | none => "N/A"
  | some c =>
      if c = "" ∨ jsTrim c.data = [] then "N/A"
      else if bigORegexTest c then c
      else "O(" ++ c ++ ")"

/-- C1: the view selector renders the Debug view exactly when the
transient `isResetting` flag is false and the `new_solution` cache entry
is present, renders the base queue/solution layout otherwise, and is
independent of whether a primary `solution` is cached. -/
theorem c1_debug_view_iff (s : State) (sol : Option Solution) :
    (selectView s = View.debug ↔ (s.isResetting = false ∧ s.new_solution.isSome = true))
    ∧ (selectView s = View.base ↔ (s.isResetting = true ∨ s.new_solution = none))
    ∧ selectView { s with solution := sol } = selectView s := by
  cases hr : s.isResetting <;> cases hn : s.new_solution <;>
    simp [selectView, hr, hn]

/-- C2: the `reset-view` handler sets `isResetting`, removes the
`solution` and `new_solution` cache entries in the same atomic state
transition (so no renderer-visible state has one cleared without the
other), empties the screenshot list, and schedules exactly one deferred
zero-delay task which sets `isResetting` back to false without disturbing
the cleared entries. -/
theorem c2_reset_clears_together (s : State) :
    (onResetView s).1.isResetting = true
    ∧ ((onResetView s).1.solution = none ∧ (onResetView s).1.new_solution = none)
    ∧ (onResetView s).1.extraScreenshots = []
    ∧ (onResetView s).2 = [Effect.deferResetDone]
    ∧ (resetDone (onResetView s).1).isResetting = false
    ∧ (resetDone (onResetView s).1).solution = none
    ∧ (resetDone (onResetView s).1).new_solution = none := by
  simp [onResetView, resetDone]

/-- C5: the `solution-success` handler with an absent payload leaves the
whole state (in particular the `solution` cache entry) unchanged whatever
the platform's screenshot response would have been — so no re-fetch is
triggered — and produces only a diagnostic warning; with a present payload
it replaces the `solution` entry by the payload and then re-fetches the
screenshot list exactly as `onScreenshotTaken` does. -/
theorem c5_solution_success_guard (d : Solution) (fetched : FetchResult)
    (now : Nat) (s : State) :
    onSolutionSuccess none fetched now s
        = (s, [Effect.warnLog "Received empty or invalid solution data"])
    ∧ onSolutionSuccess (some d) fetched now s
        = onScreenshotTaken fetched now { s with solution := some d }
    ∧ (onSolutionSuccess (some d) fetched now s).1.solution = some d := by
  refine ⟨rfl, rfl, ?_⟩
  cases fetched <;> simp [onSolutionSuccess, onScreenshotTaken]

/-- C6: the `solution-error` handler leaves the state unchanged, always
surfaces an error toast carrying the event's message, and requests the
Queue view transition exactly when no `solution` cache entry is present. -/
theorem c6_solution_error_fallback (e : String) (s : State) :
    (onSolutionError e s).1 = s
    ∧ Effect.toast "Processing Failed" e Severity.error ∈ (onSolutionError e s).2
    ∧ (Effect.setViewQueue ∈ (onSolutionError e s).2 ↔ s.solution = none) := by
  cases h : s.solution <;> simp [onSolutionError, h]

/-- C9: the `debug-success` handler performs no payload validation: for
every payload, present or absent, it writes the payload to the
`new_solution` cache entry and clears the debug-processing flag; with an
absent payload the view selector therefore picks the base layout, not the
Debug view, while the flag is still cleared. -/
theorem c9_debug_success_unguarded (data : Option Solution) (s : State) :
    (onDebugSuccess data s).1.new_solution = data
    ∧ (onDebugSuccess data s).1.debugProcessing = false
    ∧ selectView (onDebugSuccess none s).1 = View.base
    ∧ (onDebugSuccess none s).1.debugProcessing = false := by
  simp [onDebugSuccess, selectView]

/-- One `screenshot-taken` event keeps the list within the bound. -/
theorem onScreenshotTaken_len_le (f : FetchResult) (now : Nat) (s : State)
    (hs : s.extraScreenshots.length ≤ MAX_SCREENSHOTS) :
    (onScreenshotTaken f now s).1.extraScreenshots.length ≤ MAX_SCREENSHOTS := by
  cases f with
  | threw => simpa [onScreenshotTaken] using hs
  | nonArray => simp [onScreenshotTaken]
  | ok raw =>
      simp only [onScreenshotTaken, sliceFromEnd, MAX_SCREENSHOTS,
        List.length_drop, List.length_map]
      omega

/-- The bound is preserved by any sequence of `screenshot-taken` events. -/
theorem runScreenshotEvents_len_le (evs : List (FetchResult × Nat)) (s : State)
    (hs : s.extraScreenshots.length ≤ MAX_SCREENSHOTS) :
    (runScreenshotEvents evs s).extraScreenshots.length ≤ MAX_SCREENSHOTS := by
  induction evs generalizing s with
  | nil => simpa [runScreenshotEvents] using hs
  | cons ev rest ih =>
      have hstep := onScreenshotTaken_len_le ev.1 ev.2 s hs
      simpa [runScreenshotEvents] using ih _ hstep

/-- C3: starting from any state within the bound (the component starts
with an empty list), no sequence of `screenshot-taken` events ever leaves
more than `MAX_SCREENSHOTS = 100` entries; and when the platform returns
more than 100 screenshots, the retained entries are exactly the mapped
sequence with its oldest (front) entries dropped — the most recent 100. -/
theorem c3_screenshot_bound (evs : List (FetchResult × Nat)) (s : State)
    (hs : s.extraScreenshots.length ≤ MAX_SCREENSHOTS)
    (raw : List RawScreenshot) (now : Nat)
    (hraw : MAX_SCREENSHOTS < raw.length) :
    (runScreenshotEvents evs s).extraScreenshots.length ≤ MAX_SCREENSHOTS
    ∧ (onScreenshotTaken (FetchResult.ok raw) now s).1.extraScreenshots
        = (raw.map (toScreenshotRef now)).drop (raw.length - MAX_SCREENSHOTS)
    ∧ (onScreenshotTaken (FetchResult.ok raw) now s).1.extraScreenshots.length
        = MAX_SCREENSHOTS := by
  refine ⟨runScreenshotEvents_len_le evs s hs, ?_, ?_⟩
  · simp [onScreenshotTaken, sliceFromEnd]
  · simp only [onScreenshotTaken, sliceFromEnd, List.length_drop, List.length_map]
    revert hraw
    simp only [MAX_SCREENSHOTS]
    omega

/-- A platform screenshot used for concrete checks. -/
def sampleRaw : RawScreenshot :=
  { path := "sp", preview := "pv" }

/-- Witness for C3 at the empty event sequence from the initial state, and
a platform response of 101 screenshots. -/
theorem c3_screenshot_bound_witness :
    (initialState.extraScreenshots.length ≤ MAX_SCREENSHOTS
      ∧ MAX_SCREENSHOTS < (List.replicate 101 sampleRaw).length)
    ∧ ((runScreenshotEvents [] initialState).extraScreenshots.length ≤ MAX_SCREENSHOTS
      ∧ (onScreenshotTaken (FetchResult.ok (List.replicate 101 sampleRaw)) 7
            initialState).1.extraScreenshots
          = ((List.replicate 101 sampleRaw).map (toScreenshotRef 7)).drop
              ((List.replicate 101 sampleRaw).length - MAX_SCREENSHOTS)
      ∧ (onScreenshotTaken (FetchResult.ok (List.replicate 101 sampleRaw)) 7
            initialState).1.extraScreenshots.length = MAX_SCREENSHOTS) :=
  ⟨⟨by decide, by decide⟩,
    c3_screenshot_bound [] initialState (by decide)
      (List.replicate 101 sampleRaw) 7 (by decide)⟩

/-- C4: the mount effect registers exactly one handler per named platform
event — every one of the ten event names occurs exactly once in the
registration list — and the teardown loop invokes every present unregister
function in order while skipping absent ones as no-ops. -/
theorem c4_registration_teardown :
    (∀ e : EventName, registeredEvents.count e = 1)
    ∧ (∀ (α : Type) (us : List (Option (α → α))) (r : α),
        runCleanup us r = (us.filterMap id).foldl (fun acc f => f acc) r) := by
  constructor
  · intro e
    cases e <;> decide
  · intro α us r
    induction us generalizing r with
    | nil => rfl
    | cons u rest ih =>
        cases u <;> simp [runCleanup, ih]

/-- C10: for any index with no corresponding screenshot entry (out of
range), the delete handler is total: the dereference failure is absorbed
by the catch branch, which produces exactly one error toast and leaves the
state — in particular the screenshot list — unchanged, regardless of the
platform's would-be responses. -/
theorem c10_delete_out_of_range (index : Nat) (resp : DeleteOutcome)
    (fetched : FetchResult) (now : Nat) (s : State)
    (h : s.extraScreenshots[index]? = none) :
    handleDeleteExtraScreenshot index resp fetched now s
      = (s, [Effect.toast "Error" "Failed to delete the screenshot" Severity.error]) := by
  simp [handleDeleteExtraScreenshot, h]

/-- Witness for C10 at index 0 of the initial (empty) screenshot list. -/
theorem c10_delete_out_of_range_witness :
    initialState.extraScreenshots[0]? = none
    ∧ handleDeleteExtraScreenshot 0 DeleteOutcome.success FetchResult.nonArray 0 initialState
        = (initialState,
           [Effect.toast "Error" "Failed to delete the screenshot" Severity.error]) :=
  ⟨by decide,
    c10_delete_out_of_range 0 DeleteOutcome.success FetchResult.nonArray 0 initialState
      (by decide)⟩

/-- C7: when the index resolves to an entry, the delete handler asks the
platform to delete that entry's stable path identity; on a successful
response the new state is the one obtained by re-fetching via
`onScreenshotTaken` (no local splice), while an unsuccessful response or a
thrown platform error leaves the state unchanged and surfaces an error
toast. -/
theorem c7_delete_screenshot (index : Nat) (fetched : FetchResult) (now : Nat)
    (s : State) (shot : ScreenshotRef)
    (h : s.extraScreenshots[index]? = some shot) :
    Effect.deleteRequest shot.path
        ∈ (handleDeleteExtraScreenshot index DeleteOutcome.success fetched now s).2
    ∧ (handleDeleteExtraScreenshot index DeleteOutcome.success fetched now s).1
        = (onScreenshotTaken fetched now s).1
    ∧ handleDeleteExtraScreenshot index DeleteOutcome.failure fetched now s
        = (s, [Effect.deleteRequest shot.path,
               Effect.toast "Error" "Failed to delete the screenshot" Severity.error])
    ∧ handleDeleteExtraScreenshot index DeleteOutcome.threw fetched now s
        = (s, [Effect.deleteRequest shot.path,
               Effect.toast "Error" "Failed to delete the screenshot" Severity.error]) := by
  simp [handleDeleteExtraScreenshot, h]

/-- A retained screenshot entry used for concrete checks. -/
def sampleShot : ScreenshotRef :=
  { id := "sp", path := "sp", preview := "pv", timestamp := 3 }

/-- A state holding exactly one screenshot entry. -/
def sampleStateOneShot : State :=
  { initialState with extraScreenshots := [sampleShot] }

/-- Witness for C7 at index 0 of a one-entry screenshot list, with a
platform fetch that throws. -/
theorem c7_delete_screenshot_witness :
    sampleStateOneShot.extraScreenshots[0]? = some sampleShot
    ∧ (Effect.deleteRequest sampleShot.path
        ∈ (handleDeleteExtraScreenshot 0 DeleteOutcome.success FetchResult.threw 4
            sampleStateOneShot).2
      ∧ (handleDeleteExtraScreenshot 0 DeleteOutcome.success FetchResult.threw 4
            sampleStateOneShot).1
          = (onScreenshotTaken FetchResult.threw 4 sampleStateOneShot).1
      ∧ handleDeleteExtraScreenshot 0 DeleteOutcome.failure FetchResult.threw 4
            sampleStateOneShot
          = (sampleStateOneShot,
             [Effect.deleteRequest sampleShot.path,
              Effect.toast "Error" "Failed to delete the screenshot" Severity.error])
      ∧ handleDeleteExtraScreenshot 0 DeleteOutcome.threw FetchResult.threw 4
            sampleStateOneShot
          = (sampleStateOneShot,
             [Effect.deleteRequest sampleShot.path,
              Effect.toast "Error" "Failed to delete the screenshot" Severity.error])) :=
  ⟨by decide,
    c7_delete_screenshot 0 FetchResult.threw 4 sampleStateOneShot sampleShot (by decide)⟩

/-- A whitespace character is neither `O` nor `o`. -/
theorem isJsWhitespace_ne_O {c : Char} (h : isJsWhitespace c = true) :
    (c == 'O' || c == 'o') = false := by
  cases hco : (c == 'O' || c == 'o') with
  | false => rfl
  | true =>
      exfalso
      simp only [Bool.or_eq_true, beq_iff_eq] at hco
      rcases hco with rfl | rfl
      · exact absurd h (by decide)
      · exact absurd h (by decide)

/-- The Big-O pattern never matches inside an all-whitespace string. -/
theorem bigOSearch_all_ws {l : List Char}
    (h : ∀ c ∈ l, isJsWhitespace c = true) : bigOSearch l = false := by
  induction l with
  | nil => rfl
  | cons c rest ih =>
      have hc : isJsWhitespace c = true := h c (by simp)
      have hrest : ∀ x ∈ rest, isJsWhitespace x = true :=
        fun x hx => h x (by simp [hx])
      cases rest with
      | nil => simp [bigOSearch, bigOAt]
      | cons d rest2 =>
          have hat : bigOAt (c :: d :: rest2) = false := by
            simp [bigOAt, isJsWhitespace_ne_O hc]
          rw [bigOSearch, hat, ih hrest]
          rfl

/-- A string whose JavaScript trim is empty is all whitespace. -/
theorem jsTrim_eq_nil_all_ws {l : List Char} (h : jsTrim l = []) :
    ∀ c ∈ l, isJsWhitespace c = true := by
  have h1 : ((l.dropWhile isJsWhitespace).reverse.dropWhile isJsWhitespace) = [] := by
    simpa [jsTrim] using h
  have h2 : ∀ c ∈ (l.dropWhile isJsWhitespace).reverse, isJsWhitespace c = true :=
    List.dropWhile_eq_nil_iff.mp h1
  have h3 : ∀ c ∈ l.dropWhile isJsWhitespace, isJsWhitespace c = true :=
    fun c hc => h2 c (List.mem_reverse.mpr hc)
  intro c hc
  have hsplit : c ∈ l.takeWhile isJsWhitespace ++ l.dropWhile isJsWhitespace := by
    rw [List.takeWhile_append_dropWhile]
    exact hc
  rcases List.mem_append.mp hsplit with htake | hdrop
  · exact List.mem_takeWhile_imp htake
  · exact h3 c hdrop

/-- An all-whitespace string trims to the empty string. -/
theorem jsTrim_all_ws_eq_nil {l : List Char}
    (h : ∀ c ∈ l, isJsWhitespace c = true) : jsTrim l = [] := by
  have h1 : l.dropWhile isJsWhitespace = [] := List.dropWhile_eq_nil_iff.mpr h
  simp [jsTrim, h1]

/-- C8 counterexample: the string consisting of a single space is
non-empty and contains no Big-O pattern, yet `formatComplexity` renders it
as "N/A" rather than wrapping it once as `O( )`. -/
theorem c8_counterexample :
    (" " : String) ≠ ""
    ∧ bigORegexTest " " = false
    ∧ formatComplexity (some " ") ≠ "O(" ++ " " ++ ")"
    ∧ formatComplexity (some " ") = "N/A" := by
  decide

/-- C8 (amended): a complexity string already containing a Big-O pattern
`O(...)` (case-insensitive) is rendered verbatim, never double-wrapped; a
complexity string with at least one non-whitespace character that lacks
the pattern is wrapped exactly once as `O(value)`; every empty or
whitespace-only string (whitespace as stripped by JavaScript's `trim`)
renders as "N/A". -/
theorem c8_format_complexity (c : String) :
    (bigORegexTest c = true → formatComplexity (some c) = c)
    ∧ (c.data.all isJsWhitespace = false → bigORegexTest c = false →
        formatComplexity (some c) = "O(" ++ c ++ ")")
    ∧ (c.data.all isJsWhitespace = true → formatComplexity (some c) = "N/A") := by
  refine ⟨?_, ?_, ?_⟩
  · intro h
    have hblank : ¬(c = "" ∨ jsTrim c.data = []) := by
      rintro (rfl | htrim)
      · exact absurd h (by decide)
      · have hws := bigOSearch_all_ws (jsTrim_eq_nil_all_ws htrim)
        rw [bigORegexTest, hws] at h
        exact Bool.false_ne_true h
    simp [formatComplexity, hblank, h]
  · intro hall hbo
    have hblank : ¬(c = "" ∨ jsTrim c.data = []) := by
      rintro (rfl | htrim)
      · exact absurd hall (by decide)
      · have hws : c.data.all isJsWhitespace = true :=
          List.all_eq_true.mpr (jsTrim_eq_nil_all_ws htrim)
        rw [hall] at hws
        exact Bool.false_ne_true hws
    simp [formatComplexity, hblank, hbo]
  · intro hall
    have htrim : jsTrim c.data = [] :=
      jsTrim_all_ws_eq_nil (List.all_eq_true.mp hall)
    simp [formatComplexity, htrim]

/-- Witness for C8 at the already-wrapped string `O(n)`, the bare string
`n`, and a string consisting of a single no-break space. -/
theorem c8_format_complexity_witness :
    (bigORegexTest "O(n)" = true ∧ formatComplexity (some "O(n)") = "O(n)")
    ∧ ("n".data.all isJsWhitespace = false ∧ bigORegexTest "n" = false
        ∧ formatComplexity (some "n") = "O(" ++ "n" ++ ")")
    ∧ ("\u00a0".data.all isJsWhitespace = true
        ∧ formatComplexity (some "\u00a0") = "N/A") :=
  ⟨⟨by decide, (c8_format_complexity "O(n)").1 (by decide)⟩,
    ⟨by decide, by decide,
      (c8_format_complexity "n").2.1 (by decide) (by decide)⟩,
    ⟨by decide, (c8_format_complexity "\u00a0").2.2 (by decide)⟩⟩

end SolutionsSpec
